import Mathlib

set_option maxHeartbeats 1000000

/-
Verification of the CareLock-Sync mapping engine and sync controller.

The development shallowly embeds the Python modules
  backend/schema-mapper/data_transformer.py  (DataTransformer, FHIRMapper)
  backend/schema-mapper/mapping_config.py    (MappingConfig.PATIENT_MAPPING)
  backend/cdc/postgresql_adapter.py          (PostgreSQLAdapter.get_changes)
  backend/etl/incremental_sync.py            (IncrementalSync)
  backend/api/routes/sync.py                 (trigger_full_sync, trigger_incremental_sync)
as pure Lean functions.  Database effects (queries, loads, deletes) are
abstracted into explicit environment records that say how each effectful step
would turn out; exceptions raised by Python code are modelled as Option
failure or as explicit outcome values, as noted at each definition.
-/

namespace CareLockSync

/-- Python values that flow through the mapper: None, booleans, integers,
strings, lists and (string-keyed, insertion-ordered) dicts.  Floating point
and date/datetime objects are outside the model; where the source touches
them the modelling choice is noted at the definition. -/
inductive Value where
  | null
  | bool (b : Bool)
  | num (n : Int)
  | str (s : String)
  | arr (elems : List Value)
  | obj (fields : List (String × Value))

/-- Models the Python test "value is None". -/
def Value.isNull : Value → Bool
  | .null => true
  | _ => false

/-- Dict lookup: first binding of the key, none when absent. -/
def assocGet {α : Type} : List (String × α) → String → Option α
  | [], _ => none
  | (k, v) :: rest, q => if k = q then some v else assocGet rest q

/-- Dict assignment: replaces the binding in place when the key exists
(keeping insertion order, like a Python dict), appends it otherwise. -/
def assocSet {α : Type} : List (String × α) → String → α → List (String × α)
  | [], q, v => [(q, v)]
  | (k, w) :: rest, q, v => if k = q then (q, v) :: rest else (k, w) :: assocSet rest q v

/-- Python str() on a value.  Scalar cases are faithful: str(None) = "None",
booleans capitalized, integers in decimal, strings unchanged.  The textual
form of a container (str of a list or dict) is abbreviated to a fixed marker:
no claim inspects the string form of a container, only that it is not one of
a finite set of scalar keywords. -/
def pyStr : Value → String
  | .null => "None"
  | .bool true => "True"
  | .bool false => "False"
  | .num n => toString n
  | .str s => s
  | .arr _ => "[...]"
  | .obj _ => "\x7b...\x7d"

/-- Python str.lower(), character by character (ASCII case folding). -/
def pyLower (s : String) : String := String.mk (s.data.map Char.toLower)

/-- Python str.strip(): drops whitespace from both ends. -/
def pyStrip (s : String) : String :=
  String.mk (((s.data.dropWhile Char.isWhitespace).reverse.dropWhile Char.isWhitespace).reverse)

/-- DataTransformer.to_string: None stays None, anything else becomes str(value). -/
def to_string (value : Value) : Value :=
  if value.isNull then .null else .str (pyStr value)

/-- DataTransformer.to_decimal: float coercion with null on failure.
Floating point is outside the model, so numeric values are integers and the
string branch accepts the integer-literal forms of float(); inputs float()
rejects (and containers, where it raises and the raise is caught) give null.
No claim depends on the numeric details of this transformation. -/
def to_decimal (value : Value) : Value :=
  if value.isNull then .null
  else
    match value with
    | .str "" => .null
    | .num n => .num n
    | .bool b => .num (if b then 1 else 0)
    | .str s =>
      match (pyStrip s).toInt? with
      | some n => .num n
      | none => .null
    | _ => .null

/-- DataTransformer.format_date.  The date/datetime isinstance branches format
driver date objects, which are outside the Value model (values are modelled as
already stringified); the string branch and the None branch are the faithful
part, and the fallthrough is str(value). -/
def format_date (value : Value) : Value :=
  if value.isNull then .null
  else
    match value with
    | .str s => .str s
    | v => .str (pyStr v)

/-- DataTransformer.format_datetime, same modelling as format_date. -/
def format_datetime (value : Value) : Value :=
  if value.isNull then .null
  else
    match value with
    | .str s => .str s
    | v => .str (pyStr v)

/-- DataTransformer.normalize_gender: None maps to "unknown"; otherwise
str(value).lower().strip() is matched against token lists with default
"unknown". -/
def normalize_gender (value : Value) : Value :=
  if value.isNull then .str "unknown"
  else
    let gender_str := pyStrip (pyLower (pyStr value))
    if gender_str ∈ ["m", "male", "man"] then .str "male"
    else if gender_str ∈ ["f", "female", "woman"] then .str "female"
    else if gender_str ∈ ["o", "other"] then .str "other"
    else .str "unknown"

/-- DataTransformer.patient_reference: no None check in the source, so None
becomes the string "Patient/None". -/
def patient_reference (patient_id : Value) : Value :=
  .str ("Patient/" ++ pyStr patient_id)

/-- DataTransformer.encounter_reference: None stays None. -/
def encounter_reference (encounter_id : Value) : Value :=
  if encounter_id.isNull then .null
  else .str ("Encounter/" ++ pyStr encounter_id)

/-- DataTransformer.map_encounter_class: None and every unmapped lowercased
input give "AMB" (dict.get default). -/
def map_encounter_class (encounter_type : Value) : Value :=
  if encounter_type.isNull then .str "AMB"
  else
    let type_str := pyLower (pyStr encounter_type)
    .str ((assocGet [("inpatient", "IMP"), ("outpatient", "AMB"), ("emergency", "EMER"),
      ("home", "HH"), ("virtual", "VR")] type_str).getD "AMB")

/-- DataTransformer.map_encounter_status: None and every unmapped lowercased
input give "unknown". -/
def map_encounter_status (status : Value) : Value :=
  if status.isNull then .str "unknown"
  else
    let status_str := pyLower (pyStr status)
    .str ((assocGet [("active", "in-progress"), ("discharged", "finished"),
      ("cancelled", "cancelled"), ("transferred", "in-progress"),
      ("planned", "planned")] status_str).getD "unknown")

/-- DataTransformer.map_abnormal_flag: None stays None, unmapped inputs give "N". -/
def map_abnormal_flag (flag : Value) : Value :=
  if flag.isNull then .null
  else
    let flag_str := pyLower (pyStr flag)
    .str ((assocGet [("normal", "N"), ("high", "H"), ("low", "L"),
      ("critical", "HH"), ("abnormal", "A")] flag_str).getD "N")

/-- DataTransformer.map_medication_status: None and unmapped inputs give "unknown". -/
def map_medication_status (status : Value) : Value :=
  if status.isNull then .str "unknown"
  else
    let status_str := pyLower (pyStr status)
    .str ((assocGet [("active", "active"), ("completed", "completed"),
      ("discontinued", "stopped"), ("cancelled", "cancelled"),
      ("on-hold", "on-hold")] status_str).getD "unknown")

/-- First match of the regex (\d+\.?\d*) in a character list: scan to the
first digit, take the maximal digit run, then optionally one dot followed by
a possibly empty digit run (greedy, as the regex matches). -/
def firstNumberSubstr : List Char → Option String
  | [] => none
  | c :: cs =>
    if c.isDigit then
      let intPart := (c :: cs).takeWhile Char.isDigit
      match (c :: cs).dropWhile Char.isDigit with
      | '.' :: rest => some (String.mk (intPart ++ '.' :: rest.takeWhile Char.isDigit))
      | _ => some (String.mk intPart)
    else firstNumberSubstr cs

/-- DataTransformer.extract_dosage_value: None stays None, otherwise the first
numeric substring of str(value), or None when there is none. -/
def extract_dosage_value (dosage_str : Value) : Value :=
  if dosage_str.isNull then .null
  else
    match firstNumberSubstr (pyStr dosage_str).data with
    | some s => .str s
    | none => .null

/-- What the attribute that getattr resolves for a name does when the
dispatch calls it on one argument: a transformation method computes a value;
a callable of the wrong arity raises TypeError; object.__init__ accepts the
argument as self and returns None; absent means getattr returned None and
nothing is called. -/
inductive GetattrResult where
  | transform (f : Value → Value)
  | typeErr
  | retNone
  | absent

/-- getattr(DataTransformer, name, None) combined with the one-argument call
the dispatch performs on the resolved callable.  The table enumerates every
attribute the class itself defines — the twelve transformation staticmethods,
plus the classmethod apply_transformation, whose one-argument call is missing
its second parameter and raises TypeError — and the one non-dunder callable
the class inherits, type.mro, which takes no argument and also raises.  The
dunder attributes inherited from object and type (__init__, which swallows
the argument and returns None, __str__, and the rest) also resolve to
callables; only __init__ is enumerated here, so pass-through theorems about
unresolved names restrict themselves to non-dunder names, over which this
enumeration is exhaustive. -/
def getattrCall : String → GetattrResult
  | "to_string" => .transform to_string
  | "to_decimal" => .transform to_decimal
  | "format_date" => .transform format_date
  | "format_datetime" => .transform format_datetime
  | "normalize_gender" => .transform normalize_gender
  | "patient_reference" => .transform patient_reference
  | "encounter_reference" => .transform encounter_reference
  | "map_encounter_class" => .transform map_encounter_class
  | "map_encounter_status" => .transform map_encounter_status
  | "map_abnormal_flag" => .transform map_abnormal_flag
  | "map_medication_status" => .transform map_medication_status
  | "extract_dosage_value" => .transform extract_dosage_value
  | "apply_transformation" => .typeErr
  | "mro" => .typeErr
  | "__init__" => .retNone
  | _ => .absent

/-- Python dunder names begin with a double underscore. -/
def isDunderName (s : String) : Bool := s.data.take 2 == ['_', '_']

/-- DataTransformer.apply_transformation: a missing transformation name or a
None input value short-circuits to the input before any attribute lookup;
otherwise the name is resolved with getattr and, when the result is callable,
invoked on the value — which applies a registered transformation, but for the
other resolvable attributes raises TypeError (modelled as none) or returns
None instead of the value; only a name resolving to nothing falls through to
the return of the original value. -/
def apply_transformation (value : Value) (transformation : Option String) : Option Value :=
  match transformation with
  | none => some value
  | some name =>
    if value.isNull then some value
    else
      match getattrCall name with
      | .transform f => some (f value)
      | .typeErr => none
      | .retNone => some Value.null
      | .absent => some value

/-- One step of a parsed target path: an object key or an array index, the
two alternatives of the path regex (\w+)|\[(\d+)\]. -/
inductive PathStep where
  | key (s : String)
  | idx (n : Nat)

/-- Word characters of the path regex alternative \w+ (ASCII). -/
def isWordChar (c : Char) : Bool := c.isAlphanum || c == '_'

/-- int() on a digit run. -/
def digitsToNat (ds : List Char) : Nat :=
  ds.foldl (fun acc c => acc * 10 + (c.toNat - '0'.toNat)) 0

/-- Left-to-right regex scan of re.findall on (\w+)|\[(\d+)\]: a word run
becomes a key step; a bracketed digit run becomes an index step; where both
alternatives fail the scan advances one character, exactly as the regex
engine does.  The fuel argument only bounds the recursion and is called with
the length of the character list, which each step strictly decreases. -/
def scanParts : Nat → List Char → List PathStep
  | 0, _ => []
  | _, [] => []
  | fuel + 1, c :: cs =>
    if isWordChar c then
      .key (String.mk ((c :: cs).takeWhile isWordChar))
        :: scanParts fuel ((c :: cs).dropWhile isWordChar)
    else if c == '[' then
      match cs.takeWhile Char.isDigit, cs.dropWhile Char.isDigit with
      | _ :: _, ']' :: rest =>
        .idx (digitsToNat (cs.takeWhile Char.isDigit)) :: scanParts fuel rest
      | _, _ => scanParts fuel cs
    else scanParts fuel cs

/-- re.findall of the path grammar over a whole path string. -/
def parseParts (path : String) : List PathStep :=
  scanParts path.data.length path.data

/-- The while-loop that grows a Python list with fill elements until the
index is in range: len(current) <= idx appends fill. -/
def padTo (elems : List Value) (idx : Nat) (fill : Value) : List Value :=
  elems ++ List.replicate (idx + 1 - elems.length) fill

/-- The traversal loop of FHIRMapper.set_nested_value, after the None check,
over the parsed path steps.  An intermediate key step creates a missing child
keyed by a lookahead at the next step (list for an index, dict for a key); an
intermediate index step grows the list with empty dicts; the final key step
assigns the key and the final index step grows the list with None and assigns
the slot.  none models a Python runtime error: an empty parts list
(IndexError on parts[-1]) or a step applied to a node of the other shape
(TypeError / AttributeError; the source only ever reaches steps matching the
node shape it itself created, and no claim exercises mismatched shapes). -/
def writeSteps (value : Value) : Value → List PathStep → Option Value
  | _, [] => none
  | .obj fields, [.key k] => some (.obj (assocSet fields k value))
  | .arr elems, [.idx i] => some (.arr ((padTo elems i .null).set i value))
  | .obj fields, .key k :: next :: rest =>
    let child :=
      match assocGet fields k with
      | some c => c
      | none =>
        match next with
        | .idx _ => .arr []
        | .key _ => .obj []
    (writeSteps value child (next :: rest)).map fun child2 => .obj (assocSet fields k child2)
  | .arr elems, .idx i :: next :: rest =>
    let padded := padTo elems i (.obj [])
    (writeSteps value (padded.getD i (.obj [])) (next :: rest)).map
      fun child2 => .arr (padded.set i child2)
  | _, _ => none

/-- FHIRMapper.set_nested_value: a None value returns without touching the
document; otherwise the parsed path is materialized into the document. -/
def set_nested_value (obj : Value) (path : String) (value : Value) : Option Value :=
  if value.isNull then some obj
  else writeSteps value obj (parseParts path)

/-- One field mapping entry of a mapping configuration. -/
structure FieldMapping where
  source_field : String
  target_path : String
  data_type : String
  required : Bool
  transformation : Option String

/-- A mapping configuration as in mapping_config.py. -/
structure MappingConfig where
  source_table : String
  target_resource : String
  field_mappings : List FieldMapping

/-- record.get(source_field): None when the column is absent. -/
def recordGet (record : List (String × Value)) (k : String) : Value :=
  (assocGet record k).getD .null

/-- The body of the field-mapping loop of FHIRMapper.map_record: resolve the
source value, transform it, and write it at the target path; a raising
transformation or traversal propagates as none, aborting the whole record. -/
def mapStep (record : List (String × Value)) (acc : Option Value) (m : FieldMapping) : Option Value :=
  acc.bind fun doc =>
    (apply_transformation (recordGet record m.source_field) m.transformation).bind fun tv =>
      set_nested_value doc m.target_path tv

/-- FHIRMapper.map_record: starts from the resourceType discriminator and
folds every field mapping; none models a raising traversal aborting the
whole record. -/
def map_record (config : MappingConfig) (record : List (String × Value)) : Option Value :=
  config.field_mappings.foldl (mapStep record)
    (some (.obj [("resourceType", .str config.target_resource)]))

/-- MappingConfig.PATIENT_MAPPING from mapping_config.py. -/
def PATIENT_MAPPING : MappingConfig where
  source_table := "patients"
  target_resource := "Patient"
  field_mappings :=
    [ { source_field := "patient_id", target_path := "id", data_type := "integer",
        required := true, transformation := some "to_string" },
      { source_field := "medical_record_number", target_path := "identifier[0].value",
        data_type := "string", required := true, transformation := none },
      { source_field := "first_name", target_path := "name[0].given[0]",
        data_type := "string", required := true, transformation := none },
      { source_field := "last_name", target_path := "name[0].family",
        data_type := "string", required := true, transformation := none },
      { source_field := "date_of_birth", target_path := "birthDate",
        data_type := "date", required := true, transformation := some "format_date" },
      { source_field := "gender", target_path := "gender",
        data_type := "code", required := false, transformation := some "normalize_gender" },
      { source_field := "phone_number", target_path := "telecom[0].value",
        data_type := "string", required := false, transformation := none },
      { source_field := "email", target_path := "telecom[1].value",
        data_type := "string", required := false, transformation := none },
      { source_field := "address_line1", target_path := "address[0].line[0]",
        data_type := "string", required := false, transformation := none },
      { source_field := "city", target_path := "address[0].city",
        data_type := "string", required := false, transformation := none },
      { source_field := "state", target_path := "address[0].state",
        data_type := "string", required := false, transformation := none },
      { source_field := "zip_code", target_path := "address[0].postalCode",
        data_type := "string", required := false, transformation := none } ]

/-- Insertion step of the sort modelling the ORDER BY clause: the row is
placed before the first element with a key not smaller than its own. -/
def insertByKey {α : Type} (key : α → Nat) (e : α) : List α → List α
  | [] => [e]
  | x :: xs => if key e ≤ key x then e :: x :: xs else x :: insertByKey key e xs

/-- ORDER BY key ASC over the rows of a query result, modelled as insertion
sort (SQL promises any reordering that is sorted; this picks one). -/
def sortByKey {α : Type} (key : α → Nat) : List α → List α
  | [] => []
  | x :: xs => insertByKey key x (sortByKey key xs)

/-- A row of the data_change_log table as PostgreSQLAdapter.get_changes reads
it.  The operation is kept as its stored text; timestamps and the JSON
snapshots are carried opaquely as values. -/
structure ChangeEvent where
  change_id : Nat
  table_name : String
  operation : String
  record_id : Int
  old_data : Value
  new_data : Value

/-- The since_change_id filter of get_changes: the WHERE clause is added
exactly when the argument is not None (a genuine is-not-None check in the
source, so 0 does filter). -/
def sinceFilter : Option Nat → ChangeEvent → Bool
  | none, _ => true
  | some n, e => n < e.change_id

/-- The table_name filter of get_changes: the source guards with Python
truthiness, so None and the empty string both mean no filter. -/
def tableFilter : Option String → ChangeEvent → Bool
  | none, _ => true
  | some t, e => if t = "" then true else e.table_name == t

/-- PostgreSQLAdapter.get_changes over a modelled log table: WHERE the two
optional filters, ORDER BY change_id, LIMIT limit.  The surrounding
try/except (which turns a failed query into an empty result) is the
environment failing, not program logic, and is not modelled. -/
def get_changes (log : List ChangeEvent) (since_change_id : Option Nat)
    (table_name : Option String) (limit : Nat) : List ChangeEvent :=
  (sortByKey ChangeEvent.change_id
    (log.filter fun e => sinceFilter since_change_id e && tableFilter table_name e)).take limit

/-- A row of data_change_log as IncrementalSync.get_changes_since_last_sync
selects it (change_id, table_name, operation, record_id; changed_at is
never consulted afterwards and is omitted). -/
structure Change where
  change_id : Nat
  table_name : String
  operation : String
  record_id : Int

/-- Python truthiness of the optional last_sync_id: None and 0 are falsy, so
the source applies the change_id filter only for a nonzero id. -/
def pyTruthy : Option Nat → Bool
  | none => false
  | some n => !(n == 0)

/-- IncrementalSync.get_changes_since_last_sync: all log rows, filtered by
change_id > last_sync_id only when last_sync_id is truthy, ORDER BY
change_id ASC, with no LIMIT. -/
def get_changes_since_last_sync (log : List Change) (last_sync_id : Option Nat) : List Change :=
  sortByKey Change.change_id
    (if pyTruthy last_sync_id then
      log.filter fun c => last_sync_id.getD 0 < c.change_id
    else log)

/-- Outcome of the re-fetch of a source row inside sync_changed_patient or
sync_changed_encounter: the row is present, the row is absent (the
"not found" print path), or the query raised. -/
inductive FetchResult where
  | ok
  | notFound
  | exc

/-- Environment abstracting the two databases for one incremental run: how
the re-fetch of each row turns out, and whether the map+load of a present
row or the DELETE statement raises. -/
structure SyncEnv where
  patientFetch : Int → FetchResult
  patientLoadRaises : Int → Bool
  patientDeleteRaises : Int → Bool
  encounterFetch : Int → FetchResult
  encounterLoadRaises : Int → Bool
  encounterDeleteRaises : Int → Bool

/-- IncrementalSync.sync_changed_patient: DELETE removes the target row and
returns True (False when the statement raises, via the catch-all except);
INSERT and UPDATE re-fetch the current source row and return False when it
is missing or when any step raises, True after a successful map+load. -/
def sync_changed_patient (env : SyncEnv) (patient_id : Int) (operation : String) : Bool :=
  if operation = "DELETE" then
    !env.patientDeleteRaises patient_id
  else
    match env.patientFetch patient_id with
    | .exc => false
    | .notFound => false
    | .ok => !env.patientLoadRaises patient_id

/-- IncrementalSync.sync_changed_encounter, same shape as the patient case. -/
def sync_changed_encounter (env : SyncEnv) (encounter_id : Int) (operation : String) : Bool :=
  if operation = "DELETE" then
    !env.encounterDeleteRaises encounter_id
  else
    match env.encounterFetch encounter_id with
    | .exc => false
    | .notFound => false
    | .ok => !env.encounterLoadRaises encounter_id

/-- The stats dict of IncrementalSync.sync_incremental.  last_change_id is
optional because the key is absent from the dict until the loop first sets
it (and the empty-changes return carries the caller value through). -/
structure IncStats where
  total_changes : Nat
  synced : Nat
  errors : Nat
  by_table : List (String × Nat)
  by_operation : List (String × Nat)
  last_change_id : Option Nat

/-- stats[d][k] = stats[d].get(k, 0) + 1 on a counter dict. -/
def bumpCount (counts : List (String × Nat)) (k : String) : List (String × Nat) :=
  assocSet counts k ((assocGet counts k).getD 0 + 1)

/-- The body of the per-change loop of IncrementalSync.sync_incremental:
count the change by table and operation, dispatch patients and encounters to
their sync routine (any other table leaves success False), count the outcome
into synced or errors, and advance last_change_id to this change. -/
def processChange (env : SyncEnv) (stats : IncStats) (change : Change) : IncStats :=
  let stats1 := { stats with
    by_table := bumpCount stats.by_table change.table_name
    by_operation := bumpCount stats.by_operation change.operation }
  let success :=
    if change.table_name = "patients" then
      sync_changed_patient env change.record_id change.operation
    else if change.table_name = "encounters" then
      sync_changed_encounter env change.record_id change.operation
    else false
  let stats2 :=
    if success then { stats1 with synced := stats1.synced + 1 }
    else { stats1 with errors := stats1.errors + 1 }
  { stats2 with last_change_id := some change.change_id }

/-- IncrementalSync.sync_incremental: read every change past last_sync_id,
return zero stats (with the caller cursor) when there are none, otherwise
fold the per-change loop over the changes in change_id order. -/
def sync_incremental (env : SyncEnv) (log : List Change) (last_sync_id : Option Nat) : IncStats :=
  let changes := get_changes_since_last_sync log last_sync_id
  if changes.isEmpty then
    { total_changes := 0, synced := 0, errors := 0, by_table := [], by_operation := [],
      last_change_id := last_sync_id }
  else
    changes.foldl (processChange env)
      { total_changes := changes.length, synced := 0, errors := 0, by_table := [],
        by_operation := [], last_change_id := none }

/-- The tables the CDC setup script monitors (cdc_monitor.py main block). -/
def tables_to_monitor : List String := ["patients", "encounters", "lab_results", "medications"]

/-- One entry of the sync_history list kept by the sync routes (the dict key
named type in the source is sync_type here, type being reserved). -/
structure HistEntry where
  sync_id : String
  sync_type : String
  started_at : String
  completed_at : String
  stats : Value

/-- The module-level sync_state dict of backend/api/routes/sync.py. -/
structure SyncState where
  is_syncing : Bool
  last_sync_time : Option String
  last_sync_stats : Option Value
  total_syncs : Nat
  sync_history : List HistEntry

/-- How the body of a sync run turns out: the stats value it returns, or the
exception it raises. -/
inductive RunOutcome where
  | ok (stats : Value)
  | exc (msg : String)

/-- What a route handler produces: a JSON response or an HTTPException. -/
inductive HandlerResult where
  | response (status : String) (message : String) (sync_id : String)
      (started_at : String) (stats : Value)
  | httpError (status_code : Nat) (detail : String)

/-- The history trim: keep only the last 10 entries once more accumulate. -/
def trimHistory (h : List HistEntry) : List HistEntry :=
  if h.length > 10 then h.drop (h.length - 10) else h

/-- stats.get("total_changes", 0) as interpolated into the response message. -/
def statsGetNatD (stats : Value) (k : String) (d : Nat) : Nat :=
  match stats with
  | .obj fields =>
    match assocGet fields k with
    | some (.num n) => n.toNat
    | _ => d
  | _ => d

/-- trigger_full_sync of backend/api/routes/sync.py as a transformer of the
module state.  A call finding is_syncing true raises 409 before touching any
state.  Otherwise the flag is set, the pipeline runs (its outcome, and the
wall-clock strings, are parameters of the model), and the handler either
records the result and clears the flag, or on any exception clears the flag
and raises 500. -/
def trigger_full_sync (st : SyncState) (sync_id started_at completed_at : String)
    (run : RunOutcome) : SyncState × HandlerResult :=
  if st.is_syncing then
    (st, .httpError 409 "Sync already in progress")
  else
    let st1 := { st with is_syncing := true }
    match run with
    | .exc msg => ({ st1 with is_syncing := false }, .httpError 500 ("Sync failed: " ++ msg))
    | .ok stats =>
      let st2 := { st1 with
        is_syncing := false
        last_sync_time := some started_at
        last_sync_stats := some stats
        total_syncs := st1.total_syncs + 1
        sync_history := trimHistory (st1.sync_history ++
          [{ sync_id := sync_id, sync_type := "full", started_at := started_at,
             completed_at := completed_at, stats := stats }]) }
      (st2, .response "completed" "Full sync completed successfully" sync_id started_at stats)

/-- trigger_incremental_sync of backend/api/routes/sync.py, same state
discipline as the full handler with the incremental run and message. -/
def trigger_incremental_sync (st : SyncState) (sync_id started_at completed_at : String)
    (run : RunOutcome) : SyncState × HandlerResult :=
  if st.is_syncing then
    (st, .httpError 409 "Sync already in progress")
  else
    let st1 := { st with is_syncing := true }
    match run with
    | .exc msg => ({ st1 with is_syncing := false }, .httpError 500 ("Sync failed: " ++ msg))
    | .ok stats =>
      let st2 := { st1 with
        is_syncing := false
        last_sync_time := some started_at
        last_sync_stats := some stats
        total_syncs := st1.total_syncs + 1
        sync_history := trimHistory (st1.sync_history ++
          [{ sync_id := sync_id, sync_type := "incremental", started_at := started_at,
             completed_at := completed_at, stats := stats }]) }
      (st2, .response "completed"
        ("Incremental sync completed. Processed " ++
          toString (statsGetNatD stats "total_changes" 0) ++ " changes")
        sync_id started_at stats)

/-- An environment where every source-row re-fetch reports the row missing
and nothing raises: the deleted-between-capture-and-processing situation. -/
def envAllNotFound : SyncEnv where
  patientFetch := fun _ => .notFound
  patientLoadRaises := fun _ => false
  patientDeleteRaises := fun _ => false
  encounterFetch := fun _ => .notFound
  encounterLoadRaises := fun _ => false
  encounterDeleteRaises := fun _ => false

/-- An environment where every re-fetch finds its row and nothing raises. -/
def envAllOk : SyncEnv where
  patientFetch := fun _ => .ok
  patientLoadRaises := fun _ => false
  patientDeleteRaises := fun _ => false
  encounterFetch := fun _ => .ok
  encounterLoadRaises := fun _ => false
  encounterDeleteRaises := fun _ => false

/-- An INSERT change on patients (whose row the environment may have deleted). -/
def chgInsertMissing : Change :=
  { change_id := 1, table_name := "patients", operation := "INSERT", record_id := 10 }

/-- A one-event log holding only that INSERT. -/
def logOneInsert : List Change := [chgInsertMissing]

/-- A change on lab_results, a monitored table the sync loop does not handle. -/
def chgLab : Change :=
  { change_id := 5, table_name := "lab_results", operation := "INSERT", record_id := 7 }

/-- Stats as they stand when the loop reaches its first change. -/
def emptyStats : IncStats :=
  { total_changes := 1, synced := 0, errors := 0, by_table := [], by_operation := [],
    last_change_id := none }

/-- The gender entry of PATIENT_MAPPING, as a standalone field mapping. -/
def genderMapping : FieldMapping :=
  { source_field := "gender", target_path := "gender", data_type := "code",
    required := false, transformation := some "normalize_gender" }

/-- A three-row log with out-of-order, distinct change ids. -/
def logSample : List ChangeEvent :=
  [ { change_id := 3, table_name := "patients", operation := "INSERT", record_id := 1,
      old_data := .null, new_data := .null },
    { change_id := 1, table_name := "encounters", operation := "UPDATE", record_id := 2,
      old_data := .null, new_data := .null },
    { change_id := 2, table_name := "patients", operation := "DELETE", record_id := 3,
      old_data := .null, new_data := .null } ]

/-- A module state in which a sync is in flight. -/
def busyState : SyncState where
  is_syncing := true
  last_sync_time := none
  last_sync_stats := none
  total_syncs := 0
  sync_history := []

/-- An idle module state with some prior history. -/
def idleState : SyncState where
  is_syncing := false
  last_sync_time := some "2024-01-01T00:00:00"
  last_sync_stats := none
  total_syncs := 3
  sync_history := []

/-! Helper lemmas about the ORDER BY model. -/

theorem mem_insertByKey {α : Type} {key : α → Nat} {e a : α} {l : List α} :
    a ∈ insertByKey key e l ↔ a = e ∨ a ∈ l := by
  induction l with
  | nil => simp [insertByKey]
  | cons x xs ih =>
    simp only [insertByKey]
    split
    · simp
    · simp only [List.mem_cons, ih]
      tauto

theorem perm_insertByKey {α : Type} (key : α → Nat) (e : α) (l : List α) :
    List.Perm (insertByKey key e l) (e :: l) := by
  induction l with
  | nil => rfl
  | cons x xs ih =>
    simp only [insertByKey]
    split
    · exact List.Perm.refl _
    · exact (ih.cons x).trans (List.Perm.swap e x xs)

theorem perm_sortByKey {α : Type} (key : α → Nat) (l : List α) :
    List.Perm (sortByKey key l) l := by
  induction l with
  | nil => rfl
  | cons x xs ih => exact (perm_insertByKey key x (sortByKey key xs)).trans (ih.cons x)

theorem pairwise_insertByKey {α : Type} {key : α → Nat} {e : α} {l : List α}
    (h : l.Pairwise fun a b => key a ≤ key b) :
    (insertByKey key e l).Pairwise fun a b => key a ≤ key b := by
  induction l with
  | nil => simp [insertByKey]
  | cons x xs ih =>
    rcases List.pairwise_cons.mp h with ⟨hx, hxs⟩
    simp only [insertByKey]
    split_ifs with hle
    · refine List.pairwise_cons.mpr ⟨?_, h⟩
      intro b hb
      rcases List.mem_cons.mp hb with rfl | hb
      · exact hle
      · exact le_trans hle (hx b hb)
    · refine List.pairwise_cons.mpr ⟨?_, ih hxs⟩
      intro b hb
      rcases mem_insertByKey.mp hb with rfl | hb
      · omega
      · exact hx b hb

theorem pairwise_sortByKey {α : Type} (key : α → Nat) (l : List α) :
    (sortByKey key l).Pairwise fun a b => key a ≤ key b := by
  induction l with
  | nil => simp [sortByKey]
  | cons x xs ih => exact pairwise_insertByKey ih

theorem pairwise_lt_sortByKey {α : Type} {key : α → Nat} {l : List α}
    (h : (l.map key).Nodup) :
    (sortByKey key l).Pairwise fun a b => key a < key b := by
  have hs := pairwise_sortByKey key l
  have hperm : List.Perm ((sortByKey key l).map key) (l.map key) :=
    (perm_sortByKey key l).map key
  have hnd : ((sortByKey key l).map key).Nodup := hperm.nodup_iff.mpr h
  have hne : (sortByKey key l).Pairwise fun a b => key a ≠ key b := List.pairwise_map.mp hnd
  exact (hs.and hne).imp fun hab => lt_of_le_of_ne hab.1 hab.2

/-- C6: the change reader returns only events with change_id greater than the
sinceId, sorted strictly ascending by change_id, and at most limit of them.
The strictness hypothesis is that change_id is a key of the log table, i.e.
its values are distinct. -/
theorem C6_get_changes_ordered (log : List ChangeEvent) (since : Option Nat)
    (tbl : Option String) (limit : Nat)
    (hids : (log.map ChangeEvent.change_id).Nodup) :
    (∀ e ∈ get_changes log since tbl limit, ∀ N, since = some N → N < e.change_id) ∧
    (get_changes log since tbl limit).Pairwise (fun a b => a.change_id < b.change_id) ∧
    (get_changes log since tbl limit).length ≤ limit := by
  refine ⟨?_, ?_, ?_⟩
  · intro e he N hN
    subst hN
    have h1 : e ∈ sortByKey ChangeEvent.change_id
        (log.filter fun e => sinceFilter (some N) e && tableFilter tbl e) :=
      List.take_subset _ _ he
    have h2 := (perm_sortByKey ChangeEvent.change_id _).mem_iff.mp h1
    have h3 := (Bool.and_eq_true _ _).mp (List.mem_filter.mp h2).2
    simpa [sinceFilter] using h3.1
  · have hsub : ((log.filter fun e => sinceFilter since e && tableFilter tbl e).map
        ChangeEvent.change_id).Sublist (log.map ChangeEvent.change_id) :=
      (List.filter_sublist log).map ChangeEvent.change_id
    exact (pairwise_lt_sortByKey (hids.sublist hsub)).sublist (List.take_sublist _ _)
  · exact List.length_take_le _ _

/-- C6 witness: the theorem applied to the concrete three-row log. -/
theorem C6_get_changes_ordered_witness :
    (get_changes logSample (some 1) none 2).Pairwise (fun a b => a.change_id < b.change_id) ∧
    (get_changes logSample (some 1) none 2).length ≤ 2 :=
  ⟨(C6_get_changes_ordered logSample (some 1) none 2 (by decide)).2.1,
   (C6_get_changes_ordered logSample (some 1) none 2 (by decide)).2.2⟩

/-- C3: when the resolved value of a field mapping is null after
transformation, nothing is written: set_nested_value returns the document
unchanged on a null value, so the loop step of map_record leaves the
accumulated document exactly as it was (no key, array entry, or placeholder
is created for the target path). -/
theorem C3_null_value_writes_nothing (doc : Value) (path : String)
    (record : List (String × Value)) (m : FieldMapping)
    (h : apply_transformation (recordGet record m.source_field) m.transformation = some .null) :
    set_nested_value doc path .null = some doc ∧
    mapStep record (some doc) m = some doc := by
  refine ⟨rfl, ?_⟩
  simp [mapStep, h, set_nested_value, Value.isNull]

/-- C3 witness: a record whose gender column is null leaves the document
untouched. -/
theorem C3_null_value_writes_nothing_witness :
    set_nested_value (.obj [("resourceType", .str "Patient")]) "gender" .null =
      some (.obj [("resourceType", .str "Patient")]) ∧
    mapStep [("gender", Value.null)] (some (.obj [("resourceType", .str "Patient")]))
      genderMapping = some (.obj [("resourceType", .str "Patient")]) :=
  C3_null_value_writes_nothing (.obj [("resourceType", .str "Patient")]) "gender"
    [("gender", Value.null)] genderMapping rfl

/-- C4: writing any non-null value at path x[2].y into an empty document
yields x as a three-element array whose first two entries are empty objects
and whose third is the object binding y to the value. -/
theorem C4_array_growth (v : Value) (h : v.isNull = false) :
    set_nested_value (.obj []) "x[2].y" v =
      some (.obj [("x", .arr [.obj [], .obj [], .obj [("y", v)]])]) := by
  unfold set_nested_value
  rw [h]
  rfl

/-- C4 witness: the theorem at the concrete value "Jane". -/
theorem C4_array_growth_witness :
    set_nested_value (.obj []) "x[2].y" (.str "Jane") =
      some (.obj [("x", .arr [.obj [], .obj [], .obj [("y", .str "Jane")]])]) :=
  C4_array_growth (.str "Jane") rfl

/-- C5: normalize_gender always lands in the four FHIR gender codes; every
input whose lowercased string form is not a mapped encounter-class key gives
"AMB"; every input whose lowercased string form is not a mapped
encounter-status key gives "unknown"; all three functions are total Lean
functions, so none of them can raise. -/
theorem C5_transformation_totality :
    (∀ v : Value, normalize_gender v ∈
      [Value.str "male", Value.str "female", Value.str "other", Value.str "unknown"]) ∧
    (∀ v : Value,
      pyLower (pyStr v) ∉ ["inpatient", "outpatient", "emergency", "home", "virtual"] →
      map_encounter_class v = .str "AMB") ∧
    (∀ v : Value,
      pyLower (pyStr v) ∉ ["active", "discharged", "cancelled", "transferred", "planned"] →
      map_encounter_status v = .str "unknown") := by
  refine ⟨fun v => ?_, fun v h => ?_, fun v h => ?_⟩
  · by_cases h0 : v.isNull = true
    · simp [normalize_gender, h0]
    · by_cases h1 : pyStrip (pyLower (pyStr v)) ∈ ["m", "male", "man"]
      · simp [normalize_gender, h0, h1]
      · by_cases h2 : pyStrip (pyLower (pyStr v)) ∈ ["f", "female", "woman"]
        · simp [normalize_gender, h0, h1, h2]
        · by_cases h3 : pyStrip (pyLower (pyStr v)) ∈ ["o", "other"]
          · simp [normalize_gender, h0, h1, h2, h3]
          · simp [normalize_gender, h0, h1, h2, h3]
  · unfold map_encounter_class
    split_ifs with hn
    · rfl
    · simp only [List.mem_cons, List.not_mem_nil, or_false, not_or] at h
      obtain ⟨h1, h2, h3, h4, h5⟩ := h
      simp [assocGet, Ne.symm h1, Ne.symm h2, Ne.symm h3, Ne.symm h4, Ne.symm h5]
  · unfold map_encounter_status
    split_ifs with hn
    · rfl
    · simp only [List.mem_cons, List.not_mem_nil, or_false, not_or] at h
      obtain ⟨h1, h2, h3, h4, h5⟩ := h
      simp [assocGet, Ne.symm h1, Ne.symm h2, Ne.symm h3, Ne.symm h4, Ne.symm h5]

/-- C5 witness: the three parts at concrete unmapped inputs. -/
theorem C5_transformation_totality_witness :
    normalize_gender (.str "Nonbinary") ∈
      [Value.str "male", Value.str "female", Value.str "other", Value.str "unknown"] ∧
    map_encounter_class (.str "Telehealth") = .str "AMB" ∧
    map_encounter_status (.str "pending") = .str "unknown" :=
  ⟨C5_transformation_totality.1 (.str "Nonbinary"),
   C5_transformation_totality.2.1 (.str "Telehealth") (by decide),
   C5_transformation_totality.2.2 (.str "pending") (by decide)⟩

/-- C7 counterexample: the dispatch is reflective, so a name that is not one
of the registry transformation functions can still resolve on the class: the
attribute named apply_transformation is callable and its one-argument
invocation raises TypeError instead of returning the value unchanged, and
the inherited __init__ swallows the value and returns None — refuting the
universal pass-through and no-raise of the claim at concrete inputs. -/
theorem C7_cx_reflective_dispatch :
    apply_transformation (.str "x") (some "apply_transformation") = none ∧
    apply_transformation (.str "x") (some "__init__") = some Value.null :=
  ⟨rfl, rfl⟩

/-- C7 amended: for every non-null value, a non-dunder transformation name
that getattr does not resolve on the class — any name outside the thirteen
methods the class defines and the inherited mro — passes the value through
unchanged without raising. -/
theorem C7_unresolved_name_passthrough (v : Value) (name : String)
    (hv : v.isNull = false) (habs : getattrCall name = .absent)
    (_hdun : isDunderName name = false) :
    apply_transformation v (some name) = some v := by
  simp [apply_transformation, hv, habs]

/-- C7 witness: the amended theorem at the unresolved name "uppercase". -/
theorem C7_unresolved_name_passthrough_witness :
    apply_transformation (.str "ER") (some "uppercase") = some (.str "ER") :=
  C7_unresolved_name_passthrough (.str "ER") "uppercase" rfl rfl rfl

/-- C9: a null input short-circuits apply_transformation — it returns None
without raising, before any attribute is resolved or invoked, for every
name; hence a patient record whose gender is null maps to a document with no
gender key at all, even though normalize_gender itself would send null to
"unknown" (as the last conjuncts exhibit for gender and encounter status). -/
theorem C9_null_short_circuits_transformation :
    (∀ t : Option String, apply_transformation Value.null t = some Value.null) ∧
    map_record PATIENT_MAPPING [("gender", Value.null)] =
      some (.obj [("resourceType", .str "Patient")]) ∧
    normalize_gender Value.null = .str "unknown" ∧
    map_encounter_status Value.null = .str "unknown" := by
  refine ⟨fun t => ?_, rfl, rfl, rfl⟩
  cases t <;> rfl

/-- C2: a sync trigger arriving while is_syncing is true is rejected with
the 409 concurrency error and the whole module state — the flag, the last
sync time and stats, the counter and the history — is returned unchanged,
whatever the sync run would have produced. -/
theorem C2_busy_call_rejected_unchanged (st : SyncState) (sid st1 st2 : String)
    (runF runI : RunOutcome) (h : st.is_syncing = true) :
    trigger_full_sync st sid st1 st2 runF =
      (st, .httpError 409 "Sync already in progress") ∧
    trigger_incremental_sync st sid st1 st2 runI =
      (st, .httpError 409 "Sync already in progress") := by
  constructor <;> simp [trigger_full_sync, trigger_incremental_sync, h]

/-- C2 witness: both handlers at the concrete busy state. -/
theorem C2_busy_call_rejected_unchanged_witness :
    trigger_full_sync busyState "f1" "t1" "t2" (.ok (.obj [])) =
      (busyState, .httpError 409 "Sync already in progress") ∧
    trigger_incremental_sync busyState "f1" "t1" "t2" (.exc "boom") =
      (busyState, .httpError 409 "Sync already in progress") :=
  C2_busy_call_rejected_unchanged busyState "f1" "t1" "t2" (.ok (.obj [])) (.exc "boom") rfl

/-- C8 counterexample: a call that arrives while the flag is true completes
by raising the 409 error, and after that call the flag is still true — so it
is not the case that the flag is false after every call that terminates by
exception.  (The true flag belongs to the sync still in flight; the rejected
call leaves the state untouched, as C2 proves.) -/
theorem C8_cx_rejected_call_leaves_flag_set :
    (trigger_full_sync busyState "s1" "t1" "t2" (.ok (.obj []))).2 =
      .httpError 409 "Sync already in progress" ∧
    ((trigger_full_sync busyState "s1" "t1" "t2" (.ok (.obj []))).1).is_syncing = true :=
  ⟨rfl, rfl⟩

/-- C8 amended: after every call that passes the concurrency check (the flag
was false at entry), the flag is false again on completion, on the success
path and on every exception path of either handler. -/
theorem C8_flag_cleared_after_admitted_call (st : SyncState) (sid st1 st2 : String)
    (runF runI : RunOutcome) (h : st.is_syncing = false) :
    ((trigger_full_sync st sid st1 st2 runF).1).is_syncing = false ∧
    ((trigger_incremental_sync st sid st1 st2 runI).1).is_syncing = false := by
  cases runF <;> cases runI <;>
    simp [trigger_full_sync, trigger_incremental_sync, h]

/-- C8 witness: the amended theorem at the idle state, one handler succeeding
and the other raising. -/
theorem C8_flag_cleared_after_admitted_call_witness :
    ((trigger_full_sync idleState "f" "t1" "t2" (.exc "boom")).1).is_syncing = false ∧
    ((trigger_incremental_sync idleState "f" "t1" "t2" (.ok (.obj []))).1).is_syncing = false :=
  C8_flag_cleared_after_admitted_call idleState "f" "t1" "t2" (.exc "boom") (.ok (.obj [])) rfl

/-- C1 counterexample: one INSERT event on patients whose source row is gone
at re-fetch time.  The claim says the errors counter is unchanged by such an
event; the run over this one-event log ends with errors = 1 (and synced = 0),
because sync_changed_patient returns False for a missing row and the loop
counts every False into errors. -/
theorem C1_cx_notfound_counted_as_error :
    (sync_incremental envAllNotFound logOneInsert none).synced = 0 ∧
    (sync_incremental envAllNotFound logOneInsert none).errors = 1 :=
  ⟨rfl, rfl⟩

/-- C1 amended: an INSERT or UPDATE event whose source row is missing at
re-fetch time is reported not-found and does not raise or fail the batch
(processChange is total and the fold continues), and leaves synced
unchanged — but it is counted into the errors counter, and the cursor still
advances to the event. -/
theorem C1_notfound_skipped_but_counted (env : SyncEnv) (stats : IncStats) (c : Change)
    (hop : c.operation ≠ "DELETE")
    (hnf : (c.table_name = "patients" ∧ env.patientFetch c.record_id = .notFound) ∨
           (c.table_name = "encounters" ∧ env.encounterFetch c.record_id = .notFound)) :
    (processChange env stats c).synced = stats.synced ∧
    (processChange env stats c).errors = stats.errors + 1 ∧
    (processChange env stats c).last_change_id = some c.change_id := by
  rcases hnf with ⟨ht, hf⟩ | ⟨ht, hf⟩ <;>
    simp [processChange, sync_changed_patient, sync_changed_encounter, ht, hf, hop]

/-- C1 witness: the amended theorem at the concrete missing-row INSERT. -/
theorem C1_notfound_skipped_but_counted_witness :
    (processChange envAllNotFound emptyStats chgInsertMissing).synced = emptyStats.synced ∧
    (processChange envAllNotFound emptyStats chgInsertMissing).errors = emptyStats.errors + 1 ∧
    (processChange envAllNotFound emptyStats chgInsertMissing).last_change_id =
      some chgInsertMissing.change_id :=
  C1_notfound_skipped_but_counted envAllNotFound emptyStats chgInsertMissing (by decide)
    (Or.inl ⟨rfl, rfl⟩)

/-- C10: a change on any table other than patients and encounters is counted
into errors with synced unchanged, triggers no sync action (the outcome does
not depend on the database environment at all), advances last_change_id to
the event, and a following run whose sinceId is that cursor never sees the
event again.  The positivity hypothesis reflects that change_id is a
sequence value starting at 1 (a zero cursor would be falsy and disable the
filter). -/
theorem C10_unhandled_table_counted_not_retried (env env2 : SyncEnv) (stats : IncStats)
    (c : Change) (h1 : c.table_name ≠ "patients") (h2 : c.table_name ≠ "encounters")
    (h0 : 0 < c.change_id) :
    (processChange env stats c).synced = stats.synced ∧
    (processChange env stats c).errors = stats.errors + 1 ∧
    (processChange env stats c).last_change_id = some c.change_id ∧
    processChange env stats c = processChange env2 stats c ∧
    ∀ log, c ∉ get_changes_since_last_sync log (some c.change_id) := by
  refine ⟨?_, ?_, ?_, ?_, ?_⟩
  · simp [processChange, h1, h2]
  · simp [processChange, h1, h2]
  · simp [processChange, h1, h2]
  · simp [processChange, h1, h2]
  · intro log hmem
    have ht : pyTruthy (some c.change_id) = true := by
      simp [pyTruthy]
      omega
    rw [get_changes_since_last_sync, if_pos ht] at hmem
    have hmem2 := (perm_sortByKey Change.change_id _).mem_iff.mp hmem
    have hlt := (List.mem_filter.mp hmem2).2
    simp at hlt

/-- C10 witness: the lab_results change — a table the capture setup monitors
— at two different environments, and its absence from the follow-up read. -/
theorem C10_unhandled_table_counted_not_retried_witness :
    "lab_results" ∈ tables_to_monitor ∧
    (processChange envAllNotFound emptyStats chgLab).synced = emptyStats.synced ∧
    (processChange envAllNotFound emptyStats chgLab).errors = emptyStats.errors + 1 ∧
    (processChange envAllNotFound emptyStats chgLab).last_change_id = some chgLab.change_id ∧
    processChange envAllNotFound emptyStats chgLab = processChange envAllOk emptyStats chgLab ∧
    chgLab ∉ get_changes_since_last_sync [chgLab] (some chgLab.change_id) :=
  ⟨by decide,
   (C10_unhandled_table_counted_not_retried envAllNotFound envAllOk emptyStats chgLab
      (by decide) (by decide) (by decide)).1,
   (C10_unhandled_table_counted_not_retried envAllNotFound envAllOk emptyStats chgLab
      (by decide) (by decide) (by decide)).2.1,
   (C10_unhandled_table_counted_not_retried envAllNotFound envAllOk emptyStats chgLab
      (by decide) (by decide) (by decide)).2.2.1,
   (C10_unhandled_table_counted_not_retried envAllNotFound envAllOk emptyStats chgLab
      (by decide) (by decide) (by decide)).2.2.2.1,
   (C10_unhandled_table_counted_not_retried envAllNotFound envAllOk emptyStats chgLab
      (by decide) (by decide) (by decide)).2.2.2.2 [chgLab]⟩

end CareLockSync
